import Mathlib

/-!
# lib/handlers/errors.js

A shallow embedding of the error taxonomy (`QrynError`, `QrynBadRequest`,
`QrynNotFound`) and of the terminal error `handler` of the HTTP layer,
followed by the properties its specification states.

JavaScript values are embedded as far as the module touches them: an object
is its class (for `instanceof`) and its own properties; a call either returns
or throws; reading a property of `undefined` or `null` throws; the `Error`
constructor converts its argument to a string; the reply object records the
status code set on it and the bodies sent through it; the calls `handler`
makes are collected, in program order, in a list of events.
-/

namespace Errors

/-! ## Values -/

/-- Classes an error value can be an instance of: the built-in `Object` and
`Error`, the three classes declared in errors.js, and any further class given
by its name and the class it extends. -/
inductive JSClass where
  | Object
  | Error
  | QrynError
  | QrynBadRequest
  | QrynNotFound
  | derived (name : String) (base : JSClass)
  deriving DecidableEq, Repr

/-- The prototype chain of a class, the class itself first.
`class QrynError extends Error`, `class QrynBadRequest extends QrynError`,
`class QrynNotFound extends QrynError`. -/
def JSClass.chain : JSClass → List JSClass
  | .Object => [.Object]
  | .Error => [.Error, .Object]
  | .QrynError => [.QrynError, .Error, .Object]
  | .QrynBadRequest => [.QrynBadRequest, .QrynError, .Error, .Object]
  | .QrynNotFound => [.QrynNotFound, .QrynError, .Error, .Object]
  | .derived name base => .derived name base :: base.chain

/-- JavaScript values. Numbers are the integers (status codes); an object is
its class and the list of its own properties, most recently defined first. -/
inductive JSVal where
  | undefined
  | null
  | bool (b : Bool)
  | num (n : Int)
  | str (s : String)
  | obj (cls : JSClass) (props : List (String × JSVal))

/-- The value of `v instanceof C`: false for a primitive, otherwise whether
the prototype of `C` lies on the prototype chain of `v`. -/
def instanceOf (v : JSVal) (c : JSClass) : Bool :=
  match v with
  | .obj cls _ => cls.chain.contains c
  | _ => false

/-- Properties an object inherits when it has no own property of that name:
`Error.prototype.message` is the empty string and `Error.prototype.name` is
"Error"; nothing else the module reads is inherited. -/
def JSClass.inherited (c : JSClass) (key : String) : JSVal :=
  if c.chain.contains .Error then
    if key = "message" then .str ""
    else if key = "name" then .str "Error"
    else .undefined
  else .undefined

/-- The property read `v.key`: the own property when there is one, the inherited
one otherwise. `handler` reads properties only from a value that passed
`instanceof`, which is an object; on a primitive the read is given as
`undefined`. -/
def JSVal.get (v : JSVal) (key : String) : JSVal :=
  match v with
  | .obj cls props =>
    match props.lookup key with
    | some x => x
    | none => cls.inherited key
  | _ => .undefined

/-- The assignment `this.key = x` on an object under construction. -/
def JSVal.set (v : JSVal) (key : String) (x : JSVal) : JSVal :=
  match v with
  | .obj cls props => .obj cls ((key, x) :: props)
  | other => other

/-- The object literal `{ statusCode: c, error: e, message: m }`. -/
def errorBody (c e m : JSVal) : JSVal :=
  .obj .Object [("statusCode", c), ("error", e), ("message", m)]

/-! ## The taxonomy -/

/-- The constructor `Error(message)` run for an instance of class `cls`
(`new.target`) on a string: the new object has the own property `message`,
the string itself. -/
def newError (cls : JSClass) (message : String) : JSVal :=
  .obj cls [("message", .str message)]

/-- The conversion `ToString(v)` that `Error(message)` applies to its argument,
where the value alone determines it: a string is kept; `null`, a boolean and an
integer that a double holds exactly (up to 2^53 in magnitude) are printed. For
an object the conversion runs methods of that object, which the values here do
not carry, and a larger number is printed rounded or with an exponent: the
result is `none` there. -/
def toStringJS : JSVal → Option String
  | .undefined => some "undefined"
  | .null => some "null"
  | .bool true => some "true"
  | .bool false => some "false"
  | .num n => if n.natAbs ≤ 9007199254740992 then some (toString n) else none
  | .str s => some s
  | .obj _ _ => none

/-- The constructor `Error(message)` run for an instance of class `cls` on any
argument: when the argument is `undefined` the new object has no own `message`
(it inherits the empty string), otherwise its own `message` is the argument
converted to a string. -/
def newErrorOf (cls : JSClass) (message : JSVal) : Option JSVal :=
  match message with
  | .undefined => some (.obj cls [])
  | m => (toStringJS m).map (newError cls)

/-- The constructor of `QrynError`, run for an instance of class `cls` on a
string message: `super(message); this.code = code; this.name = name`. -/
def QrynError.construct (cls : JSClass) (code name : JSVal) (message : String) : JSVal :=
  ((newError cls message).set "code" code).set "name" name

/-- The constructor of `QrynError`, run for an instance of class `cls` on any
argument values: `super(message); this.code = code; this.name = name`. -/
def QrynError.constructOf (cls : JSClass) (code name message : JSVal) : Option JSVal :=
  (newErrorOf cls message).map fun o => (o.set "code" code).set "name" name

/-- The expression `new QrynError(code, name, message)` on any argument
values. -/
def QrynError.new (code name message : JSVal) : Option JSVal :=
  QrynError.constructOf .QrynError code name message

/-- The expression `new QrynBadRequest(message)` on any argument value:
`super(400, "Bad Request", message)`. -/
def QrynBadRequest.new (message : JSVal) : Option JSVal :=
  QrynError.constructOf .QrynBadRequest (.num 400) (.str "Bad Request") message

/-- The expression `new QrynNotFound(message)` on any argument value:
`super(404, "Not Found", message)`. -/
def QrynNotFound.new (message : JSVal) : Option JSVal :=
  QrynError.constructOf .QrynNotFound (.num 404) (.str "Not Found") message

/-- The expression `new QrynError(code, name, message)` with a string
message. -/
def QrynError (code name : JSVal) (message : String) : JSVal :=
  QrynError.construct .QrynError code name message

/-- The expression `new QrynBadRequest(message)` with a string message:
`super(400, "Bad Request", message)`. -/
def QrynBadRequest (message : String) : JSVal :=
  QrynError.construct .QrynBadRequest (.num 400) (.str "Bad Request") message

/-- The expression `new QrynNotFound(message)` with a string message:
`super(404, "Not Found", message)`. -/
def QrynNotFound (message : String) : JSVal :=
  QrynError.construct .QrynNotFound (.num 404) (.str "Not Found") message

/-! ## Collaborators -/

/-- The request object, as far as `handler` reads it: `req.log`. -/
structure Request where
  log : JSVal

/-- The request object as a value. -/
def Request.toJS (req : Request) : JSVal :=
  .obj .Object [("log", req.log)]

/-- The `TypeError` a property read on `undefined` or `null` throws; its
message is the wording of the engine and is left out. -/
def typeError : JSVal :=
  .obj (.derived "TypeError" .Error) []

/-- The expression `req.log` on any value passed as `req`: a `TypeError` is
thrown when the value is `undefined` or `null`, otherwise the property is
read. -/
def readLog (req : JSVal) : Except JSVal JSVal :=
  match req with
  | .undefined => .error typeError
  | .null => .error typeError
  | v => .ok (v.get "log")

/-- The reply object, as far as `handler` writes it: the status code currently
set and the bodies sent so far, oldest first. -/
structure Response where
  statusCode : JSVal
  sent : List JSVal

/-- The call `res.status(code)`: sets the status code and returns the reply. -/
def Response.status (res : Response) (code : JSVal) : Response :=
  { res with statusCode := code }

/-- The call `res.send(body)`: transmits the body. -/
def Response.send (res : Response) (body : JSVal) : Response :=
  { res with sent := res.sent ++ [body] }

/-- State of the promise an asynchronous function hands to its caller. -/
inductive Promise where
  | pending
  | fulfilled
  | rejected (reason : JSVal)

/-- What a call does before control is back with the caller: it returns a
value or a promise, or it throws. -/
inductive Completion where
  | returned (value : JSVal)
  | returnedPromise (p : Promise)
  | threw (e : JSVal)

/-- What the recording step does once it runs: it completes, it fails, or it
stays unfinished. -/
inductive Recording where
  | done
  | failed (reason : JSVal)
  | unfinished

/-- Modelled from the spec: `asyncLogError` of lib/common, which `handler`
imports and which is not among the sources. The spec gives it as the
collaborator `recordError(error, logContext) -> void` that records
asynchronously, fire-and-forget, non-blocking and not awaited. An asynchronous
function returns a promise to its caller whatever its body does: a failure of
the recording step rejects the promise and is not thrown at the caller. -/
def asyncLogError (recording : JSVal → JSVal → Recording) (err logContext : JSVal) :
    Completion :=
  match recording err logContext with
  | .done => .returnedPromise .fulfilled
  | .failed reason => .returnedPromise (.rejected reason)
  | .unfinished => .returnedPromise .pending

/-! ## The handler -/

/-- The calls `handler` makes on its collaborators. -/
inductive Event where
  | log (err logContext : JSVal)
  | status (code : JSVal)
  | send (body : JSVal)

/-- Whether the event is the call of the recording collaborator. -/
def Event.isLog : Event → Bool
  | .log _ _ => true
  | _ => false

/-- Whether the event is a call of `res.status`. -/
def Event.isStatus : Event → Bool
  | .status _ => true
  | _ => false

/-- Whether the event is a call of `send` on the reply. -/
def Event.isSend : Event → Bool
  | .send _ => true
  | _ => false

/-- How a run of `handler` ends: normally, or with a thrown value. -/
inductive Outcome where
  | normal
  | thrown (e : JSVal)

/-- A run of `handler`: the calls it made in program order, the reply object
afterwards, and how it ended. -/
structure Run where
  events : List Event
  res : Response
  outcome : Outcome

/-- The function `handler(err, req, res)` with the imported `asyncLogError` as
a parameter `logError` and any value as `req`. A taxonomy error is answered
from its own fields, and `req` is not touched. Otherwise the arguments of the
recording call are evaluated, `req.log` among them, the recording collaborator
is called, its result is dropped, and the fixed 500 answer is written. There
is no `try` in the function: if `req.log` or the call throws, the exception
leaves `handler` and nothing is written. -/
def handlerWith (logError : JSVal → JSVal → Completion)
    (err : JSVal) (req : JSVal) (res : Response) : Run :=
  if instanceOf err .QrynError then
    let body := errorBody (err.get "code") (err.get "name") (err.get "message")
    { events := [.status (err.get "code"), .send body]
      res := (res.status (err.get "code")).send body
      outcome := .normal }
  else
    match readLog req with
    | .error e =>
      { events := [], res := res, outcome := .thrown e }
    | .ok log =>
      match logError err log with
      | .threw e =>
        { events := [.log err log], res := res, outcome := .thrown e }
      | _ =>
        let body := errorBody (.num 500) (.str "Internal Server Error")
          (.str "Internal Server Error")
        { events := [.log err log, .status (.num 500), .send body]
          res := (res.status (.num 500)).send body
          outcome := .normal }

/-- The function `handler(err, req, res)` of errors.js, linked with
`asyncLogError`, on any value passed as `req`; `recording` is what the
recording step does when it runs. -/
def handlerAny (recording : JSVal → JSVal → Recording)
    (err : JSVal) (req : JSVal) (res : Response) : Run :=
  handlerWith (asyncLogError recording) err req res

/-- The function `handler(err, req, res)` of errors.js, linked with
`asyncLogError` and called with a request object, as the HTTP layer calls
it. -/
def handler (recording : JSVal → JSVal → Recording)
    (err : JSVal) (req : Request) (res : Response) : Run :=
  handlerAny recording err req.toJS res

/-- The body of the answer to a failure outside the taxonomy. -/
def internalBody : JSVal :=
  errorBody (.num 500) (.str "Internal Server Error") (.str "Internal Server Error")

/-! ## Sample inputs -/

/-- A failure outside the taxonomy that carries `code`, `name` and `message`
fields of its own: an `Error` with message "boom". -/
def boom : JSVal :=
  .obj .Error [("code", .num 418), ("name", .str "Teapot"), ("message", .str "boom")]

/-- A thrown string. -/
def thrownString : JSVal := .str "disk full"

/-- An instance of a class declared elsewhere as `class Timeout extends Error`. -/
def timeoutError : JSVal :=
  .obj (.derived "Timeout" .Error) [("message", .str "timed out")]

/-- A request whose logging context is an object. -/
def sampleRequest : Request := { log := .obj .Object [("level", .str "info")] }

/-- A fresh reply: status 200, nothing sent. -/
def freshResponse : Response := { statusCode := .num 200, sent := [] }

/-- A recording step that always fails. -/
def failingRecording : JSVal → JSVal → Recording :=
  fun err _ => .failed err

/-- A recording step that always completes. -/
def quietRecording : JSVal → JSVal → Recording :=
  fun _ _ => .done

/-! ## Basic facts -/

theorem instanceOf_construct (cls : JSClass) (code name : JSVal) (message : String) :
    instanceOf (QrynError.construct cls code name message) .QrynError
      = cls.chain.contains .QrynError := by
  rfl

theorem get_code_construct (cls : JSClass) (code name : JSVal) (message : String) :
    (QrynError.construct cls code name message).get "code" = code := by
  simp [QrynError.construct, newError, JSVal.set, JSVal.get, List.lookup]

theorem get_name_construct (cls : JSClass) (code name : JSVal) (message : String) :
    (QrynError.construct cls code name message).get "name" = name := by
  simp [QrynError.construct, newError, JSVal.set, JSVal.get, List.lookup]

theorem get_message_construct (cls : JSClass) (code name : JSVal) (message : String) :
    (QrynError.construct cls code name message).get "message" = .str message := by
  simp [QrynError.construct, newError, JSVal.set, JSVal.get, List.lookup]

theorem instanceOf_QrynError (code name : JSVal) (message : String) :
    instanceOf (QrynError code name message) .QrynError = true := by
  rfl

theorem instanceOf_QrynBadRequest (message : String) :
    instanceOf (QrynBadRequest message) .QrynError = true := by
  rfl

theorem instanceOf_QrynNotFound (message : String) :
    instanceOf (QrynNotFound message) .QrynError = true := by
  rfl

theorem new_QrynError_string (code name : JSVal) (message : String) :
    QrynError.new code name (.str message) = some (QrynError code name message) := by
  rfl

theorem new_QrynBadRequest_string (message : String) :
    QrynBadRequest.new (.str message) = some (QrynBadRequest message) := by
  rfl

theorem new_QrynNotFound_string (message : String) :
    QrynNotFound.new (.str message) = some (QrynNotFound message) := by
  rfl

theorem readLog_toJS (req : Request) : readLog req.toJS = .ok req.log := by
  simp [readLog, Request.toJS, JSVal.get, List.lookup]

/-- Reading `req.log` succeeds on every value but `undefined` and `null`. -/
theorem readLog_ok (req : JSVal) (hu : req ≠ .undefined) (hn : req ≠ .null) :
    readLog req = .ok (req.get "log") := by
  cases req <;> simp_all [readLog]

/-- A run on a taxonomy error, whatever the recording collaborator and the
value passed as `req` are. -/
theorem handlerWith_taxonomy (logError : JSVal → JSVal → Completion)
    (err req : JSVal) (res : Response)
    (h : instanceOf err .QrynError = true) :
    handlerWith logError err req res =
      { events := [.status (err.get "code"),
          .send (errorBody (err.get "code") (err.get "name") (err.get "message"))]
        res := (res.status (err.get "code")).send
          (errorBody (err.get "code") (err.get "name") (err.get "message"))
        outcome := .normal } := by
  simp [handlerWith, h]

/-- A run on a failure outside the taxonomy when `req.log` can be read and the
recording call returns. -/
theorem handlerWith_internal (logError : JSVal → JSVal → Completion)
    (err req log : JSVal) (res : Response)
    (h : instanceOf err .QrynError = false)
    (hlog : readLog req = .ok log)
    (hret : ∀ e, logError err log ≠ .threw e) :
    handlerWith logError err req res =
      { events := [.log err log, .status (.num 500), .send internalBody]
        res := (res.status (.num 500)).send internalBody
        outcome := .normal } := by
  unfold handlerWith
  simp only [h, Bool.false_eq_true, if_false, hlog]
  cases hc : logError err log with
  | threw e => exact absurd hc (hret e)
  | returned v => rfl
  | returnedPromise p => rfl

/-- The call of `asyncLogError` never throws at its caller. -/
theorem asyncLogError_returns (recording : JSVal → JSVal → Recording)
    (err logContext e : JSVal) :
    asyncLogError recording err logContext ≠ .threw e := by
  unfold asyncLogError
  cases recording err logContext <;> simp

/-- A run of `handler` on a failure outside the taxonomy. -/
theorem handler_internal_run (recording : JSVal → JSVal → Recording)
    (err : JSVal) (req : Request) (res : Response)
    (h : instanceOf err .QrynError = false) :
    handler recording err req res =
      { events := [.log err req.log, .status (.num 500), .send internalBody]
        res := (res.status (.num 500)).send internalBody
        outcome := .normal } :=
  handlerWith_internal _ err req.toJS req.log res h (readLog_toJS req)
    (asyncLogError_returns recording err req.log)

/-- A run of `handler` on a taxonomy error. -/
theorem handler_taxonomy_run (recording : JSVal → JSVal → Recording)
    (err : JSVal) (req : Request) (res : Response)
    (h : instanceOf err .QrynError = true) :
    handler recording err req res =
      { events := [.status (err.get "code"),
          .send (errorBody (err.get "code") (err.get "name") (err.get "message"))]
        res := (res.status (err.get "code")).send
          (errorBody (err.get "code") (err.get "name") (err.get "message"))
        outcome := .normal } :=
  handlerWith_taxonomy _ err req.toJS res h

/-- Without a `try` around the call, a recording collaborator that throws at
its caller makes the run end with that exception and no answer written. -/
theorem handlerWith_threw (logError : JSVal → JSVal → Completion)
    (err e req log : JSVal) (res : Response)
    (h : instanceOf err .QrynError = false)
    (hlog : readLog req = .ok log)
    (hthrow : logError err log = .threw e) :
    handlerWith logError err req res =
      { events := [.log err log], res := res, outcome := .thrown e } := by
  unfold handlerWith
  simp only [h, Bool.false_eq_true, if_false, hlog, hthrow]

/-- Without a request to read `log` from, a failure outside the taxonomy makes
the run end with the `TypeError` of the read, before any call is made. -/
theorem handlerWith_no_request (logError : JSVal → JSVal → Completion)
    (err req : JSVal) (res : Response)
    (h : instanceOf err .QrynError = false)
    (hreq : req = .undefined ∨ req = .null) :
    handlerWith logError err req res =
      { events := [], res := res, outcome := .thrown typeError } := by
  unfold handlerWith
  rcases hreq with rfl | rfl <;> simp only [h, Bool.false_eq_true, if_false, readLog]

/-! ## The properties -/

/-- C1, as amended: for every code and name and every message that is a
string, the error built by `QrynError(code, name, message)` makes `handler` set
the status to `code` and send the one body whose fields are `statusCode: code`,
`error: name` and `message: message`, in this order and no others. -/
theorem handler_QrynError (recording : JSVal → JSVal → Recording)
    (code name : JSVal) (message : String) (req : Request) (res : Response) :
    QrynError.new code name (.str message) = some (QrynError code name message) ∧
    (handler recording (QrynError code name message) req res).res.statusCode = code ∧
    (handler recording (QrynError code name message) req res).res.sent
      = res.sent ++
        [.obj .Object [("statusCode", code), ("error", name), ("message", .str message)]] ∧
    (handler recording (QrynError code name message) req res).events
      = [.status code,
         .send (.obj .Object
           [("statusCode", code), ("error", name), ("message", .str message)])] := by
  rw [handler_taxonomy_run _ _ _ _ (instanceOf_QrynError code name message)]
  refine ⟨rfl, ?_, ?_, ?_⟩ <;>
    simp [QrynError, get_code_construct, get_name_construct, get_message_construct,
      Response.send, Response.status, errorBody]

/-- C1 fails for a message that is not a string: `new QrynError(400, "Bad
Request", 123)` is the error with message "123", and `handler` sends the body
whose `message` is the string "123", not the number 123 it was built from. -/
theorem handler_QrynError_number_message :
    QrynError.new (.num 400) (.str "Bad Request") (.num 123)
      = some (QrynError (.num 400) (.str "Bad Request") "123") ∧
    (handler quietRecording (QrynError (.num 400) (.str "Bad Request") "123")
        sampleRequest freshResponse).res.sent
      = [.obj .Object [("statusCode", .num 400), ("error", .str "Bad Request"),
          ("message", .str "123")]] ∧
    (handler quietRecording (QrynError (.num 400) (.str "Bad Request") "123")
        sampleRequest freshResponse).res.sent
      ≠ [.obj .Object [("statusCode", .num 400), ("error", .str "Bad Request"),
          ("message", .num 123)]] := by
  refine ⟨by rfl, by rfl, ?_⟩
  intro h
  have h2 := congrArg (fun l => l.map (fun b => b.get "message")) h
  simp [handler, handlerAny, handlerWith, instanceOf, JSClass.chain, QrynError,
    QrynError.construct, newError, JSVal.set, JSVal.get, List.lookup, errorBody,
    Response.send, Response.status, freshResponse] at h2

/-- C6, as amended: for every message x that is a string, `QrynBadRequest(x)`
makes `handler` set the status to 400 and send the one body whose fields are
`statusCode: 400`, `error: "Bad Request"` and `message: x`, in this order and
no others. -/
theorem handler_QrynBadRequest (recording : JSVal → JSVal → Recording)
    (x : String) (req : Request) (res : Response) :
    QrynBadRequest.new (.str x) = some (QrynBadRequest x) ∧
    (handler recording (QrynBadRequest x) req res).res.statusCode = .num 400 ∧
    (handler recording (QrynBadRequest x) req res).res.sent
      = res.sent ++
        [.obj .Object [("statusCode", .num 400), ("error", .str "Bad Request"),
          ("message", .str x)]] ∧
    (handler recording (QrynBadRequest x) req res).events
      = [.status (.num 400),
         .send (.obj .Object [("statusCode", .num 400), ("error", .str "Bad Request"),
           ("message", .str x)])] := by
  rw [handler_taxonomy_run _ _ _ _ (instanceOf_QrynBadRequest x)]
  refine ⟨rfl, ?_, ?_, ?_⟩ <;>
    simp [QrynBadRequest, get_code_construct, get_name_construct, get_message_construct,
      Response.send, Response.status, errorBody]

/-- C6 fails for a message that is not a string: `new QrynBadRequest(null)` is
the error with message "null", and `handler` sends the body whose `message` is
the string "null", not the value `null` it was built from. -/
theorem handler_QrynBadRequest_null_message :
    QrynBadRequest.new .null = some (QrynBadRequest "null") ∧
    (handler quietRecording (QrynBadRequest "null") sampleRequest freshResponse).res.sent
      = [.obj .Object [("statusCode", .num 400), ("error", .str "Bad Request"),
          ("message", .str "null")]] ∧
    (handler quietRecording (QrynBadRequest "null") sampleRequest freshResponse).res.sent
      ≠ [.obj .Object [("statusCode", .num 400), ("error", .str "Bad Request"),
          ("message", .null)]] := by
  refine ⟨by rfl, by rfl, ?_⟩
  intro h
  have h2 := congrArg (fun l => l.map (fun b => b.get "message")) h
  simp [handler, handlerAny, handlerWith, instanceOf, JSClass.chain, QrynBadRequest,
    QrynError.construct, newError, JSVal.set, JSVal.get, List.lookup, errorBody,
    Response.send, Response.status, freshResponse] at h2

/-- C7, as amended: for every message y that is a string, `QrynNotFound(y)`
makes `handler` set the status to 404 and send the one body whose fields are
`statusCode: 404`, `error: "Not Found"` and `message: y`, in this order and no
others. -/
theorem handler_QrynNotFound (recording : JSVal → JSVal → Recording)
    (y : String) (req : Request) (res : Response) :
    QrynNotFound.new (.str y) = some (QrynNotFound y) ∧
    (handler recording (QrynNotFound y) req res).res.statusCode = .num 404 ∧
    (handler recording (QrynNotFound y) req res).res.sent
      = res.sent ++
        [.obj .Object [("statusCode", .num 404), ("error", .str "Not Found"),
          ("message", .str y)]] ∧
    (handler recording (QrynNotFound y) req res).events
      = [.status (.num 404),
         .send (.obj .Object [("statusCode", .num 404), ("error", .str "Not Found"),
           ("message", .str y)])] := by
  rw [handler_taxonomy_run _ _ _ _ (instanceOf_QrynNotFound y)]
  refine ⟨rfl, ?_, ?_, ?_⟩ <;>
    simp [QrynNotFound, get_code_construct, get_name_construct, get_message_construct,
      Response.send, Response.status, errorBody]

/-- C7 fails for a message that is not a string: `new QrynNotFound(undefined)`
is an error without a `message` of its own, and `handler` sends the body whose
`message` is the empty string inherited from `Error.prototype`, not the value
`undefined` it was built from. -/
theorem handler_QrynNotFound_undefined_message :
    QrynNotFound.new .undefined
      = some (.obj .QrynNotFound [("name", .str "Not Found"), ("code", .num 404)]) ∧
    (handler quietRecording
        (.obj .QrynNotFound [("name", .str "Not Found"), ("code", .num 404)])
        sampleRequest freshResponse).res.sent
      = [.obj .Object [("statusCode", .num 404), ("error", .str "Not Found"),
          ("message", .str "")]] ∧
    (handler quietRecording
        (.obj .QrynNotFound [("name", .str "Not Found"), ("code", .num 404)])
        sampleRequest freshResponse).res.sent
      ≠ [.obj .Object [("statusCode", .num 404), ("error", .str "Not Found"),
          ("message", .undefined)]] := by
  refine ⟨by rfl, by rfl, ?_⟩
  intro h
  have h2 := congrArg (fun l => l.map (fun b => b.get "message")) h
  simp [handler, handlerAny, handlerWith, instanceOf, JSClass.chain,
    JSClass.inherited, JSVal.get, List.lookup, errorBody,
    Response.send, Response.status, freshResponse] at h2

/-- C2: for every failure that is not an instance of `QrynError`, `handler`
sets the status to 500 and sends the one fixed body whose fields are
`statusCode: 500`, `error: "Internal Server Error"` and
`message: "Internal Server Error"`, in this order and no others; any other such
failure, with any request and any recording behaviour, leaves the reply in the
same state and makes the same writes, so nothing of the failure reaches the
response. -/
theorem handler_internal_fixed (recording : JSVal → JSVal → Recording)
    (err : JSVal) (req : Request) (res : Response)
    (h : instanceOf err .QrynError = false) :
    (handler recording err req res).res.statusCode = .num 500 ∧
    (handler recording err req res).res.sent
      = res.sent ++
        [.obj .Object [("statusCode", .num 500), ("error", .str "Internal Server Error"),
          ("message", .str "Internal Server Error")]] ∧
    (handler recording err req res).events.filter (fun e => !e.isLog)
      = [.status (.num 500),
         .send (.obj .Object [("statusCode", .num 500),
           ("error", .str "Internal Server Error"),
           ("message", .str "Internal Server Error")])] ∧
    ∀ (recording2 : JSVal → JSVal → Recording) (err2 : JSVal) (req2 : Request),
      instanceOf err2 .QrynError = false →
      (handler recording2 err2 req2 res).res = (handler recording err req res).res ∧
      (handler recording2 err2 req2 res).events.filter (fun e => !e.isLog)
        = (handler recording err req res).events.filter (fun e => !e.isLog) := by
  rw [handler_internal_run _ _ _ _ h]
  refine ⟨rfl, rfl, rfl, ?_⟩
  intro recording2 err2 req2 h2
  rw [handler_internal_run _ _ _ _ h2]
  exact ⟨rfl, rfl⟩

/-- The fixed answer on an `Error` that carries `code`, `name` and `message`
fields of its own. -/
theorem handler_internal_fixed_witness :
    instanceOf boom .QrynError = false ∧
    (handler quietRecording boom sampleRequest freshResponse).res.statusCode = .num 500 ∧
    (handler quietRecording boom sampleRequest freshResponse).res.sent
      = freshResponse.sent ++
        [.obj .Object [("statusCode", .num 500), ("error", .str "Internal Server Error"),
          ("message", .str "Internal Server Error")]] ∧
    (handler quietRecording boom sampleRequest freshResponse).events.filter
        (fun e => !e.isLog)
      = [.status (.num 500),
         .send (.obj .Object [("statusCode", .num 500),
           ("error", .str "Internal Server Error"),
           ("message", .str "Internal Server Error")])] ∧
    ∀ (recording2 : JSVal → JSVal → Recording) (err2 : JSVal) (req2 : Request),
      instanceOf err2 .QrynError = false →
      (handler recording2 err2 req2 freshResponse).res
        = (handler quietRecording boom sampleRequest freshResponse).res ∧
      (handler recording2 err2 req2 freshResponse).events.filter (fun e => !e.isLog)
        = (handler quietRecording boom sampleRequest freshResponse).events.filter
            (fun e => !e.isLog) :=
  ⟨by rfl, handler_internal_fixed quietRecording boom sampleRequest freshResponse (by rfl)⟩

/-- C3, as amended: for every error and reply, and every value passed as the
request other than `undefined` and `null` (any value at all when the error is an
instance of `QrynError`), `handler` ends normally, not with an exception,
having called `status` once and `send` once and nothing else on the reply: the
reply then holds the status of that one call and one more body, the one
sent. -/
theorem handler_one_response (recording : JSVal → JSVal → Recording)
    (err req : JSVal) (res : Response)
    (h : instanceOf err .QrynError = true ∨ (req ≠ .undefined ∧ req ≠ .null)) :
    (handlerAny recording err req res).outcome = .normal ∧
    ((handlerAny recording err req res).events.filter Event.isStatus).length = 1 ∧
    ((handlerAny recording err req res).events.filter Event.isSend).length = 1 ∧
    ∃ code body,
      (handlerAny recording err req res).events.filter (fun e => !e.isLog)
        = [.status code, .send body] ∧
      (handlerAny recording err req res).res
        = { statusCode := code, sent := res.sent ++ [body] } := by
  cases ht : instanceOf err .QrynError with
  | true =>
    unfold handlerAny
    rw [handlerWith_taxonomy _ _ _ _ ht]
    exact ⟨rfl, rfl, rfl, _, _, rfl, rfl⟩
  | false =>
    have hreq : req ≠ .undefined ∧ req ≠ .null := by
      rcases h with h | h
      · rw [ht] at h
        exact absurd h (by decide)
      · exact h
    unfold handlerAny
    rw [handlerWith_internal _ _ _ _ _ ht (readLog_ok req hreq.1 hreq.2)
      (asyncLogError_returns recording err _)]
    exact ⟨rfl, rfl, rfl, _, _, rfl, rfl⟩

/-- One answer, and no exception, on a thrown string with a request object and
a recording step that fails. -/
theorem handler_one_response_witness :
    (instanceOf thrownString .QrynError = true ∨
      (sampleRequest.toJS ≠ .undefined ∧ sampleRequest.toJS ≠ .null)) ∧
    ((handlerAny failingRecording thrownString sampleRequest.toJS freshResponse).outcome
      = .normal ∧
    ((handlerAny failingRecording thrownString sampleRequest.toJS freshResponse).events.filter
      Event.isStatus).length = 1 ∧
    ((handlerAny failingRecording thrownString sampleRequest.toJS freshResponse).events.filter
      Event.isSend).length = 1 ∧
    ∃ code body,
      (handlerAny failingRecording thrownString sampleRequest.toJS freshResponse).events.filter
          (fun e => !e.isLog)
        = [.status code, .send body] ∧
      (handlerAny failingRecording thrownString sampleRequest.toJS freshResponse).res
        = { statusCode := code, sent := freshResponse.sent ++ [body] }) :=
  ⟨Or.inr ⟨by simp [Request.toJS], by simp [Request.toJS]⟩,
    handler_one_response failingRecording thrownString sampleRequest.toJS freshResponse
      (Or.inr ⟨by simp [Request.toJS], by simp [Request.toJS]⟩)⟩

/-- C3 fails when no request is passed: on a failure outside the taxonomy with
`undefined` as the request, reading `req.log` throws a `TypeError` that leaves
`handler`; no call has been made and nothing is written on the reply. -/
theorem handler_throws_without_request :
    instanceOf boom .QrynError = false ∧
    (handlerAny quietRecording boom .undefined freshResponse).outcome = .thrown typeError ∧
    (handlerAny quietRecording boom .undefined freshResponse).outcome ≠ .normal ∧
    (handlerAny quietRecording boom .undefined freshResponse).events = [] ∧
    (handlerAny quietRecording boom .undefined freshResponse).res.sent = [] := by
  refine ⟨by rfl, by rfl, ?_, by rfl, by rfl⟩
  rw [show (handlerAny quietRecording boom .undefined freshResponse).outcome
    = .thrown typeError from rfl]
  intro h
  cases h

/-- C4: for every failure outside the taxonomy and every behaviour of the
recording step, a failing one included, `handler` ends normally with status 500
and the fixed body written; a failure of the recording step only rejects the
promise that `handler` drops, and the run is the one of a recording step that
completes. -/
theorem handler_swallows_recording_failure (recording : JSVal → JSVal → Recording)
    (err : JSVal) (req : Request) (res : Response)
    (h : instanceOf err .QrynError = false) :
    (handler recording err req res).outcome = .normal ∧
    (handler recording err req res).res.statusCode = .num 500 ∧
    (handler recording err req res).res.sent
      = res.sent ++ [errorBody (.num 500) (.str "Internal Server Error")
          (.str "Internal Server Error")] ∧
    (∀ reason, recording err req.log = .failed reason →
      asyncLogError recording err req.log = .returnedPromise (.rejected reason)) ∧
    handler recording err req res = handler (fun _ _ => .done) err req res := by
  rw [handler_internal_run _ _ _ _ h, handler_internal_run _ _ _ _ h]
  refine ⟨rfl, rfl, rfl, ?_, rfl⟩
  intro reason hr
  simp [asyncLogError, hr]

/-- A thrown string with a recording step that fails. -/
theorem handler_swallows_recording_failure_witness :
    instanceOf thrownString .QrynError = false ∧
    (handler failingRecording thrownString sampleRequest freshResponse).outcome = .normal ∧
    (handler failingRecording thrownString sampleRequest freshResponse).res.statusCode
      = .num 500 ∧
    (handler failingRecording thrownString sampleRequest freshResponse).res.sent
      = freshResponse.sent ++ [errorBody (.num 500) (.str "Internal Server Error")
          (.str "Internal Server Error")] ∧
    (∀ reason, failingRecording thrownString sampleRequest.log = .failed reason →
      asyncLogError failingRecording thrownString sampleRequest.log
        = .returnedPromise (.rejected reason)) ∧
    handler failingRecording thrownString sampleRequest freshResponse
      = handler (fun _ _ => .done) thrownString sampleRequest freshResponse :=
  ⟨by rfl,
    handler_swallows_recording_failure failingRecording thrownString sampleRequest
      freshResponse (by rfl)⟩

/-- C5: `handler` calls the recording collaborator exactly once for a failure
that is not an instance of `QrynError`, and not at all for an instance of
`QrynError` or of a class that extends it: the errors built by `QrynError`,
`QrynBadRequest` and `QrynNotFound`, and the instances of any class derived
from one of the three. -/
theorem handler_log_count (recording : JSVal → JSVal → Recording)
    (err : JSVal) (req : Request) (res : Response) :
    ((handler recording err req res).events.filter Event.isLog).length
      = (if instanceOf err .QrynError then 0 else 1) ∧
    (∀ code name message, ((handler recording (QrynError code name message) req res).events.filter
      Event.isLog).length = 0) ∧
    (∀ message, ((handler recording (QrynBadRequest message) req res).events.filter
      Event.isLog).length = 0) ∧
    (∀ message, ((handler recording (QrynNotFound message) req res).events.filter
      Event.isLog).length = 0) ∧
    (∀ className props,
      ((handler recording (.obj (.derived className .QrynError) props) req res).events.filter
        Event.isLog).length = 0 ∧
      ((handler recording (.obj (.derived className .QrynBadRequest) props) req res).events.filter
        Event.isLog).length = 0 ∧
      ((handler recording (.obj (.derived className .QrynNotFound) props) req res).events.filter
        Event.isLog).length = 0) := by
  have taxonomy : ∀ e, instanceOf e .QrynError = true →
      ((handler recording e req res).events.filter Event.isLog).length = 0 := by
    intro e he
    rw [handler_taxonomy_run _ _ _ _ he]
    simp [Event.isLog]
  refine ⟨?_, ?_, ?_, ?_, ?_⟩
  · cases h : instanceOf err .QrynError with
    | true => simpa using taxonomy err h
    | false =>
      rw [handler_internal_run _ _ _ _ h]
      simp [Event.isLog]
  · intro code name message
    exact taxonomy _ (instanceOf_QrynError code name message)
  · intro message
    exact taxonomy _ (instanceOf_QrynBadRequest message)
  · intro message
    exact taxonomy _ (instanceOf_QrynNotFound message)
  · intro className props
    exact ⟨taxonomy _ rfl, taxonomy _ rfl, taxonomy _ rfl⟩

/-- C8: for every failure `err` outside the taxonomy and every request `req`,
the one call of the recording collaborator has the arguments `err` and
`req.log`. -/
theorem handler_log_arguments (recording : JSVal → JSVal → Recording)
    (err : JSVal) (req : Request) (res : Response)
    (h : instanceOf err .QrynError = false) :
    (handler recording err req res).events.filter Event.isLog
      = [.log err req.log] := by
  rw [handler_internal_run _ _ _ _ h]
  simp [Event.isLog]

/-- The recording call on an instance of a class that extends `Error`. -/
theorem handler_log_arguments_witness :
    instanceOf timeoutError .QrynError = false ∧
    (handler quietRecording timeoutError sampleRequest freshResponse).events.filter
        Event.isLog
      = [.log timeoutError sampleRequest.log] :=
  ⟨by rfl,
    handler_log_arguments quietRecording timeoutError sampleRequest freshResponse (by rfl)⟩

/-- C9: for every failure outside the taxonomy, the calls `handler` makes are,
in this order, the recording call, `status` and `send`: the recording call is
made, and every write of the status or of the body comes at a later position
than it. -/
theorem handler_logs_before_responding (recording : JSVal → JSVal → Recording)
    (err : JSVal) (req : Request) (res : Response)
    (h : instanceOf err .QrynError = false) :
    (handler recording err req res).events
      = [.log err req.log, .status (.num 500),
         .send (errorBody (.num 500) (.str "Internal Server Error")
           (.str "Internal Server Error"))] ∧
    ∀ (i j : Nat) (l w : Event),
      (handler recording err req res).events[i]? = some l → l.isLog = true →
      (handler recording err req res).events[j]? = some w →
      (w.isStatus = true ∨ w.isSend = true) → i < j := by
  rw [handler_internal_run _ _ _ _ h]
  refine ⟨rfl, ?_⟩
  intro i j l w hl hlog hw hwrite
  match i, j with
  | 0, 0 =>
    simp at hw
    subst hw
    simp [Event.isStatus, Event.isSend] at hwrite
  | 0, j + 1 => exact Nat.succ_pos j
  | 1, _ =>
    simp at hl
    subst hl
    simp [Event.isLog] at hlog
  | 2, _ =>
    simp at hl
    subst hl
    simp [Event.isLog] at hlog
  | i + 3, _ => simp at hl

/-- The order of the calls on a thrown `undefined`. -/
theorem handler_logs_before_responding_witness :
    instanceOf JSVal.undefined .QrynError = false ∧
    ((handler failingRecording .undefined sampleRequest freshResponse).events
      = [.log .undefined sampleRequest.log, .status (.num 500),
         .send (errorBody (.num 500) (.str "Internal Server Error")
           (.str "Internal Server Error"))] ∧
    ∀ (i j : Nat) (l w : Event),
      (handler failingRecording .undefined sampleRequest freshResponse).events[i]? = some l →
      l.isLog = true →
      (handler failingRecording .undefined sampleRequest freshResponse).events[j]? = some w →
      (w.isStatus = true ∨ w.isSend = true) → i < j) :=
  ⟨by rfl,
    handler_logs_before_responding failingRecording .undefined sampleRequest
      freshResponse (by rfl)⟩

/-- C10: for every error, of the taxonomy or not, the status code left on the
reply is the `statusCode` field of the body `handler` sent, and the argument of
the `status` call is the `statusCode` field of the argument of the `send`
call. -/
theorem handler_status_matches_body (recording : JSVal → JSVal → Recording)
    (err : JSVal) (req : Request) (res : Response) :
    (∃ body, (handler recording err req res).res.sent = res.sent ++ [body] ∧
      body.get "statusCode" = (handler recording err req res).res.statusCode) ∧
    (∃ code body,
      (handler recording err req res).events.filter (fun e => !e.isLog)
        = [.status code, .send body] ∧
      body.get "statusCode" = code) := by
  cases h : instanceOf err .QrynError with
  | true =>
    rw [handler_taxonomy_run _ _ _ _ h]
    exact ⟨⟨_, rfl, rfl⟩, ⟨_, _, rfl, rfl⟩⟩
  | false =>
    rw [handler_internal_run _ _ _ _ h]
    exact ⟨⟨_, rfl, rfl⟩, ⟨_, _, rfl, rfl⟩⟩

end Errors
